import Mathlib

/-!
Verification development for the Lateral Connection GIS Maker repository.

The repository converts a geospatial pipe-asset network plus tabular
inspection and defect records into geocoded lateral connection features.
This file gives a shallow embedding of its core components —
the coordinate validator (src/lib/utils/coordinateValidation.ts),
the bearing/side resolver and geometry projector
(src/lib/utils/lateralCalculator.ts), the identity matcher
(src/lib/parsers/mdbParser.ts), the lateral/tap assembler slices
(src/app/api/process/route.ts and the map component), the geocoding
service (src/lib/services/geocodingService.ts) and the export validator
(src/lib/utils/exportUtils.ts) — and proves or refutes the specified
properties about them.

Numbers are modelled as rationals: the source manipulates finite IEEE
doubles, and every property at issue is about exact branch structure and
comparisons, not rounding.  NaN is representable only at the input
boundary (the JSVal type below); all arithmetic inside the embedded
functions stays on finite values, as it does on the source's real inputs.
-/

/-- A JavaScript value sitting in a coordinate slot: a finite number, NaN,
or a non-numeric value (which the validators treat as NaN after coercion). -/
inductive JSVal where
  | num (q : ℚ)
  | nan
  | other
deriving DecidableEq, Repr

/-- Truncation toward zero, which is how JavaScript's `%` operator derives
its quotient. -/
def jsTrunc (q : ℚ) : ℤ :=
  if 0 ≤ q then ⌊q⌋ else ⌈q⌉

/-- The JavaScript remainder operator `a % n`: `a - n * trunc(a / n)`, so the
result carries the sign of the dividend `a`. -/
def jsRem (a n : ℚ) : ℚ :=
  a - n * (jsTrunc (a / n) : ℚ)

/-- `Math.max lo (Math.min hi q)` as used for clamping latitudes. -/
def jsClamp (lo hi q : ℚ) : ℚ :=
  max lo (min hi q)

/-- `Math.abs`. -/
def jsAbs (q : ℚ) : ℚ :=
  if q < 0 then -q else q

/-- `String.prototype.trim`, on the character list (the whitespace class is
the ASCII fragment; the identity keys at issue contain none beyond spaces). -/
def jsTrim (s : String) : String :=
  ⟨((s.data.dropWhile Char.isWhitespace).reverse.dropWhile Char.isWhitespace).reverse⟩

/-- `String.prototype.toLowerCase` (ASCII fragment). -/
def jsToLower (s : String) : String :=
  ⟨s.data.map Char.toLower⟩

/-- `String.prototype.toUpperCase` (ASCII fragment). -/
def jsToUpper (s : String) : String :=
  ⟨s.data.map Char.toUpper⟩

/-- `String.prototype.startsWith`. -/
def jsStartsWith (s pre : String) : Bool :=
  pre.data.isPrefixOf s.data

/-! ## Coordinate Validator — src/lib/utils/coordinateValidation.ts -/

/-- Lines 75–85 of `validateCoordinates`: if the latitude is out of range,
try one corrective swap when the alternate is in range, else clamp it.  The
pair is `(lng, lat)`. -/
def safetySwapStep (p : ℚ × ℚ) : ℚ × ℚ :=
  if p.2 < -90 ∨ 90 < p.2 then
    if (-90 ≤ p.1 ∧ p.1 ≤ 90) ∧ (p.2 < -180 ∨ 180 < p.2 ∨ jsAbs p.1 < jsAbs p.2) then
      (p.2, p.1)
    else
      (p.1, jsClamp (-90) 90 p.2)
  else p

/-- Lines 88–91 of `validateCoordinates`: clamp the latitude again if it is
still out of range. -/
def clampLatStep (p : ℚ × ℚ) : ℚ × ℚ :=
  if p.2 < -90 ∨ 90 < p.2 then (p.1, jsClamp (-90) 90 p.2) else p

/-- Lines 94–97 of `validateCoordinates`: wrap an out-of-range longitude via
the JavaScript remainder, `((lng + 180) % 360) - 180`. -/
def wrapLngStep (p : ℚ × ℚ) : ℚ × ℚ :=
  if p.1 < -180 ∨ 180 < p.1 then (jsRem (p.1 + 180) 360 - 180, p.2) else p

/-- Lines 100–103 of `validateCoordinates`: the final guard (NaN cannot arise
on rational inputs). -/
def finalGuardStep (p : ℚ × ℚ) : Option (ℚ × ℚ) :=
  if p.2 < -90 ∨ 90 < p.2 then none else some p

/-- Lines 73–105 of `validateCoordinates`: the final safety swap, the
clamping fallback, the longitude wrap and the final guard, in source order,
applied to the `[lng, lat]` pair left by the swap detection. -/
def validateTail (p0 : ℚ × ℚ) : Option (ℚ × ℚ) :=
  finalGuardStep (wrapLngStep (clampLatStep (safetySwapStep p0)))

/-- Lines 21–71 of `validateCoordinates`: the swap-detection heuristic on the
two extracted numbers, feeding `validateTail`. -/
def validateNums (first second : ℚ) : Option (ℚ × ℚ) :=
  let absFirst := jsAbs first
  let absSecond := jsAbs second
  let needsSwap : Bool :=
    -- Check 1: clearly out of range as-is
    if 90 < absSecond ∨ 180 < absFirst then true
    -- Check 2: aggressive heuristics when both are in plausible ranges
    else if absFirst ≤ 90 ∧ absSecond ≤ 180 then
      -- Pattern 1: second is clearly a longitude
      if absFirst ≤ 90 ∧ 90 < absSecond then true
      -- Pattern 2: first is smaller in magnitude
      else if absFirst ≤ 90 ∧ absSecond ≤ 180 ∧ absFirst < absSecond then
        decide ((0 < first ∧ second < 0) ∨ (absFirst < 60 ∧ 60 < absSecond) ∨
          absFirst < absSecond * (8/10) ∨ absFirst < 50)
      -- Pattern 3: US-style positive latitude with negative longitude
      else if absFirst ≤ 90 ∧ absSecond ≤ 180 ∧ 0 < first ∧ second < 0 then true
      else false
    else false
  validateTail (if needsSwap then (second, first) else (first, second))

/-- `validateCoordinates` (src/lib/utils/coordinateValidation.ts lines 7–106):
sanitizes an `[a, b]` pair into a valid WGS84 `[lng, lat]` pair, or rejects it.
`none` input stands for `null`/`undefined`/non-array arguments. -/
def validateCoordinates (coords : Option (List JSVal)) : Option (ℚ × ℚ) :=
  match coords with
  | none => none
  | some cs =>
    if cs.length < 2 then none
    else
      match cs[0]?, cs[1]? with
      | some (JSVal.num first), some (JSVal.num second) => validateNums first second
      | _, _ => none

/-! ## Bearing/Side Resolver & Geometry Projector — src/lib/utils/lateralCalculator.ts -/

/-- A GeoJSON position `[lng, lat]`. -/
abbrev Position := ℚ × ℚ

/-- The turf.js primitives the lateral calculator consumes.  `@turf/turf` is an
external library (an external collaborator per the spec), so its geodesic
computations are abstracted as an arbitrary backend: `length` is
`turf.length` in kilometers, `along line km` is `turf.along`, `bearing` is
`turf.bearing`, and `destination p meters deg` is `turf.destination` with
`units: meters`.  Every property proved below holds for any backend. -/
structure GeoLib where
  length : List Position → ℚ
  along : List Position → ℚ → Position
  bearing : Position → Position → ℚ
  destination : Position → ℚ → ℚ → Position

/-- The `while (b < 0) b += 360; while (b >= 360) b -= 360` normalisation used
by `clockToBearing`, `calculateLateralFromLine` and `calculateStubFromLine`:
for any finite input it terminates with the floor-mod of `b` into `[0, 360)`,
which is this closed form. -/
def normalize360 (b : ℚ) : ℚ :=
  b - 360 * (⌊b / 360⌋ : ℚ)

/-- `clockToBearing` (lateralCalculator lines 118–131): clock position to a
compass bearing, `(clock % 12) * 30` normalised into `[0, 360)`. -/
def clockToBearing (clockPosition : ℚ) : ℚ :=
  normalize360 (jsRem clockPosition 12 * 30)

/-- Confidence levels reported by `clockToSide`. -/
inductive Confidence where
  | high
  | low
  | none
deriving DecidableEq, Repr

/-- Result of `clockToSide`: a horizontal sense (−1 left, +1 right, 0 center)
with a confidence level. -/
structure SideResult where
  side : ℤ
  confidence : Confidence
deriving DecidableEq, Repr

/-- `clockToSide` (lateralCalculator lines 138–154): interpret only the
horizontal component of a clock position.  `none` input stands for
`null`/`undefined` (`clock == null`).  `((clock % 12) + 12) % 12 || 12`
normalises into `(0, 12]`, the `|| 12` turning a falsy 0 into 12. -/
def clockToSide (clock : Option ℚ) : SideResult :=
  match clock with
  | none => { side := 0, confidence := Confidence.none }
  | some k =>
    let c0 := jsRem (jsRem k 12 + 12) 12
    let c := if c0 = 0 then 12 else c0
    if c = 3 then { side := 1, confidence := Confidence.high }
    else if c = 9 then { side := -1, confidence := Confidence.high }
    else if 0 < c ∧ c < 6 then { side := 1, confidence := Confidence.low }
    else if 6 < c ∧ c < 12 then { side := -1, confidence := Confidence.low }
    else { side := 0, confidence := Confidence.low }

/-- `calculateLateralFromPoint` (lateralCalculator lines 159–176): geodesic
destination from the point at `tapDistance` meters on the clock bearing. -/
def calculateLateralFromPoint (G : GeoLib) (point : Position)
    (tapDistance clockPosition : ℚ) : Position :=
  G.destination point tapDistance (clockToBearing clockPosition)

/-- `calculateLateralFromLine` (lateralCalculator lines 183–251): place the tap
at the requested distance along the line (clamped to the line length), then
offset 2 m perpendicular to the local tangent when the clock position gives a
clear left/right side.  `clockPosition = none` stands for
`undefined`/`null`, in which case no offset is attempted. -/
def calculateLateralFromLine (G : GeoLib) (line : List Position)
    (tapDistance : ℚ) (clockPosition : Option ℚ) : Position :=
  let distanceKm := tapDistance / 1000
  let lineLength := G.length line
  let clampedDistance := min distanceKm lineLength
  let referencePoint := G.along line clampedDistance
  match clockPosition with
  | none => referencePoint
  | some clock =>
    let s := (clockToSide (some clock)).side
    if s ≠ 0 then
      let segmentStart := max 0 (clampedDistance - 1/1000)
      let segmentEnd := min lineLength (clampedDistance + 1/1000)
      let pointBefore := G.along line segmentStart
      let pointAfter := G.along line segmentEnd
      let lineBearing := G.bearing pointBefore pointAfter
      let perpendicularBearing := lineBearing + (s : ℚ) * 90
      let normalizedBearing := normalize360 perpendicularBearing
      G.destination referencePoint 2 normalizedBearing
    else referencePoint

/-- Asset geometry, as dispatched on by `calculateLateralPosition` and
`calculateLateralStub`.  `otherGeom` carries the GeoJSON type name of an
unsupported geometry. -/
inductive Geometry where
  | point (coordinates : Position)
  | lineString (coordinates : List Position)
  | multiLineString (coordinates : List (List Position))
  | otherGeom (typeName : String)
deriving DecidableEq, Repr

/-- `calculateLateralPosition` (lateralCalculator lines 256–279): dispatch on
the geometry type; a MultiLineString uses its first member line; an
unsupported type throws `Unsupported geometry type: ...`. -/
def calculateLateralPosition (G : GeoLib) (geometry : Geometry)
    (tapDistance clockPosition : ℚ) : Except String Position :=
  match geometry with
  | Geometry.point p =>
    Except.ok (calculateLateralFromPoint G p tapDistance clockPosition)
  | Geometry.lineString cs =>
    Except.ok (calculateLateralFromLine G cs tapDistance (some clockPosition))
  | Geometry.multiLineString css =>
    Except.ok (calculateLateralFromLine G (css.headD []) tapDistance (some clockPosition))
  | Geometry.otherGeom t =>
    Except.error ("Unsupported geometry type: " ++ t)

/-- Result of the stub computation: the connection point on the mainline and
the stub segment `[connectionPoint, stubEnd]`. -/
structure StubResult where
  connectionPoint : Position
  stubLine : Position × Position
deriving DecidableEq, Repr

/-- `calculateStubFromLine` (lateralCalculator lines 339–401): connection point
at the clamped distance along the line, stub of `stubLength` meters on the
perpendicular bearing; an ambiguous side (0) defaults to +90°. -/
def calculateStubFromLine (G : GeoLib) (line : List Position)
    (tapDistance clockPosition stubLength : ℚ) : StubResult :=
  let distanceKm := tapDistance / 1000
  let lineLength := G.length line
  let clampedDistance := min distanceKm lineLength
  let connectionPoint := G.along line clampedDistance
  let segmentStart := max 0 (clampedDistance - 1/1000)
  let segmentEnd := min lineLength (clampedDistance + 1/1000)
  let pointBefore := G.along line segmentStart
  let pointAfter := G.along line segmentEnd
  let lineBearing := G.bearing pointBefore pointAfter
  let s := (clockToSide (some clockPosition)).side
  let perpendicularBearing := lineBearing + (if s ≠ 0 then (s : ℚ) * 90 else 90)
  let normalizedBearing := normalize360 perpendicularBearing
  let stubEnd := G.destination connectionPoint stubLength normalizedBearing
  { connectionPoint := connectionPoint, stubLine := (connectionPoint, stubEnd) }

/-- `calculateLateralStub` (lateralCalculator lines 292–334): dispatch on the
geometry type.  For a Point asset the connection point is the asset point and
the stub leaves it on the clock bearing; lines go through
`calculateStubFromLine`; a MultiLineString uses its first member line.  The
source's default `stubLength` is 3.048 (10 ft); callers passing no argument
are modelled by passing 3.048 explicitly. -/
def calculateLateralStub (G : GeoLib) (geometry : Geometry)
    (tapDistance clockPosition stubLength : ℚ) : Except String StubResult :=
  match geometry with
  | Geometry.point p =>
    let stubEnd := G.destination p stubLength (clockToBearing clockPosition)
    Except.ok { connectionPoint := p, stubLine := (p, stubEnd) }
  | Geometry.lineString cs =>
    Except.ok (calculateStubFromLine G cs tapDistance clockPosition stubLength)
  | Geometry.multiLineString css =>
    Except.ok (calculateStubFromLine G (css.headD []) tapDistance clockPosition stubLength)
  | Geometry.otherGeom t =>
    Except.error ("Unsupported geometry type: " ++ t)

/-! ## Identity Matcher — src/lib/parsers/mdbParser.ts -/

/-- JavaScript truthiness of an optional string-valued property:
`undefined`/`null` and the empty string are falsy.  Property bags are
modelled string-valued (`String(x)` is then the identity); the identity
keys at issue are strings or stringified numbers in the source data. -/
def jsTruthyS : Option String → Bool
  | Option.none => false
  | some s => s != ""

/-- The JavaScript `a || b` on optional string values. -/
def jsOrS (a b : Option String) : Option String :=
  if jsTruthyS a then a else b

/-- The JavaScript `a ?? b` (nullish coalescing): only `null`/`undefined`
falls through. -/
def jsCoalesce {α : Type} (a b : Option α) : Option α :=
  match a with
  | some x => some x
  | Option.none => b

/-- Value of a nonempty all-digit string. -/
def digitsToNat (s : String) : ℕ :=
  s.data.foldl (fun n c => 10 * n + (c.toNat - 48)) 0

/-- Whether a string is nonempty and all decimal digits — the `/^\d+$/` test. -/
def isAllDigits (s : String) : Bool :=
  s != "" && s.data.all Char.isDigit

/-- JavaScript `Number(s)` for string arguments, modelled on the
integer-formatted keys the identity matcher normalises: after trimming, an
empty string is 0 and an optionally signed digit string is its integer value;
every other form (fractions, exponents, hex, words) is NaN, i.e. `none`.
`Number` is a language builtin, modelled here only on the fragment the join
keys occupy. -/
def jsNumberOfString (s : String) : Option ℤ :=
  match (jsTrim s).data with
  | [] => some 0
  | c :: rest =>
    if c = Char.ofNat 45 then
      if rest ≠ [] ∧ rest.all Char.isDigit then
        some (-(rest.foldl (fun n ch => 10 * n + (ch.toNat - 48)) 0 : ℤ))
      else Option.none
    else if c = Char.ofNat 43 then
      if rest ≠ [] ∧ rest.all Char.isDigit then
        some ((rest.foldl (fun n ch => 10 * n + (ch.toNat - 48)) 0 : ℤ))
      else Option.none
    else
      if (c :: rest).all Char.isDigit then
        some (((c :: rest).foldl (fun n ch => 10 * n + (ch.toNat - 48)) 0 : ℤ))
      else Option.none

/-- A JavaScript `Map` with string keys, as insertion-ordered key/value
pairs with unique keys. -/
def SMap (α : Type) : Type := List (String × α)

/-- `Map.prototype.get`. -/
def SMap.get? {α : Type} : SMap α → String → Option α
  | [], _ => Option.none
  | (k', v) :: rest, k => if k' = k then some v else SMap.get? rest k

/-- `Map.prototype.set`: replace the value at an existing key in place, else
append the new entry. -/
def SMap.set {α : Type} : SMap α → String → α → SMap α
  | [], k, v => [(k, v)]
  | (k', v') :: rest, k, v =>
    if k' = k then (k', v) :: rest else (k', v') :: SMap.set rest k v

/-- The empty map. -/
def SMap.empty {α : Type} : SMap α := []

/-- The loosely-typed property bag of an asset, restricted to the aliased
identity fields the matcher consults (string-valued, `none` = absent). -/
structure AssetProps where
  FID : Option String := Option.none
  fid : Option String := Option.none
  Fid : Option String := Option.none
  id : Option String := Option.none
  assetId : Option String := Option.none
  ASSET_ID : Option String := Option.none
  Asset_ID : Option String := Option.none
  ASSETID : Option String := Option.none
  AssetId : Option String := Option.none
  STATION_ID : Option String := Option.none
  StationID : Option String := Option.none
  station_id : Option String := Option.none
  PIPE_ID : Option String := Option.none
  PipeID : Option String := Option.none
  pipe_id : Option String := Option.none
  ID : Option String := Option.none
  Id : Option String := Option.none
deriving DecidableEq, Repr

/-- A sewer asset: geometry plus property bag. -/
structure SewerAsset where
  properties : AssetProps
  geometry : Geometry
deriving DecidableEq, Repr

/-- The aliased imperial-unit flag values an inspection may carry
(`isImperial === 1 || isImperial === true` is the conversion test). -/
inductive ImperialVal where
  | num (q : ℚ)
  | boolVal (b : Bool)
  | otherVal
deriving DecidableEq, Repr

/-- An inspection record, restricted to the fields the matcher and the
assembler consult.  `rawIsImperial`/`propsIsImperial` model
`inspection.raw?.IsImperial` and `inspection.properties?.IsImperial`. -/
structure InspectionRecord where
  pipeSegmentReference : Option String := Option.none
  assetId : Option String := Option.none
  inspectionId : Option String := Option.none
  tapDistance : Option ℚ := Option.none
  clockPosition : Option ℚ := Option.none
  isImperial : Option ImperialVal := Option.none
  rawIsImperial : Option ImperialVal := Option.none
  propsIsImperial : Option ImperialVal := Option.none
deriving DecidableEq, Repr

/-- `asset.properties?.FID || asset.properties?.fid || asset.properties?.Fid`
(mdbParser line 83, also route.ts line 73 and the map component). -/
def assetFid (a : SewerAsset) : Option String :=
  jsOrS a.properties.FID (jsOrS a.properties.fid a.properties.Fid)

/-- The asset key (mdbParser lines 86–88): the trimmed FID when truthy, else
the `id`/`assetId`/`ASSET_ID` fallback chain, else `asset-<index>`. -/
def assetKeyOf (assets : List SewerAsset) (a : SewerAsset) : String :=
  if jsTruthyS (assetFid a) then jsTrim ((assetFid a).getD "")
  else
    let fb := jsOrS a.properties.id (jsOrS a.properties.assetId a.properties.ASSET_ID)
    if jsTruthyS fb then fb.getD ""
    else "asset-" ++ toString (assets.indexOf a)

/-- The 14-alias fallback Asset ID chain (mdbParser lines 105–110). -/
def assetIdAliases (a : SewerAsset) : Option String :=
  jsOrS a.properties.id (jsOrS a.properties.assetId (jsOrS a.properties.ASSET_ID
    (jsOrS a.properties.Asset_ID (jsOrS a.properties.ASSETID (jsOrS a.properties.AssetId
    (jsOrS a.properties.STATION_ID (jsOrS a.properties.StationID (jsOrS a.properties.station_id
    (jsOrS a.properties.PIPE_ID (jsOrS a.properties.PipeID (jsOrS a.properties.pipe_id
    (jsOrS a.properties.ID a.properties.Id))))))))))))

/-- Registration of one asset in the two lookup maps (mdbParser lines 81–118):
the pipe-segment-reference map gets the trimmed FID, its lowercase form and —
when `Number(fid)` is not NaN — the stringified number in both cases; the
asset-ID map is only fed for assets lacking an FID. -/
def registerAsset (assets : List SewerAsset) (maps : SMap String × SMap String)
    (a : SewerAsset) : SMap String × SMap String :=
  let fid := assetFid a
  let assetKey := assetKeyOf assets a
  let refMap :=
    if jsTruthyS fid then
      let fidStr := jsTrim (fid.getD "")
      let m1 := (maps.1.set fidStr assetKey).set (jsToLower fidStr) assetKey
      match jsNumberOfString (fid.getD "") with
      | some n => (m1.set (toString n) assetKey).set (jsToLower (toString n)) assetKey
      | Option.none => m1
    else maps.1
  let idMap :=
    let assetIdVal := assetIdAliases a
    if jsTruthyS assetIdVal && !(jsTruthyS fid) then
      let idStr := jsTrim (assetIdVal.getD "")
      (maps.2.set idStr assetKey).set (jsToLower idStr) assetKey
    else maps.2
  (refMap, idMap)

/-- The two lookup maps built from the asset list (mdbParser lines 77–118):
pipe-segment-reference → asset key, and fallback asset ID → asset key. -/
def buildLookupMaps (assets : List SewerAsset) : SMap String × SMap String :=
  assets.foldl (registerAsset assets) (SMap.empty, SMap.empty)

/-- The per-inspection key search (mdbParser lines 124–182): by pipe segment
reference — exact, lowercase, `Number`-normalised, then leading-zero
normalised via `parseInt` — and only on failure by the fallback asset ID. -/
def findInspectionKey (refMap idMap : SMap String) (insp : InspectionRecord) :
    Option String :=
  -- each `if (!matchedKey)` fallthrough is JavaScript truthiness, i.e. jsOrS
  let byRef : Option String :=
    if jsTruthyS insp.pipeSegmentReference then
      let refStr := jsTrim (insp.pipeSegmentReference.getD "")
      let numTry : Option String :=
        match jsNumberOfString refStr with
        | some n => jsOrS (refMap.get? (toString n)) (refMap.get? (jsToLower (toString n)))
        | Option.none => Option.none
      let zerosTry : Option String :=
        if isAllDigits refStr then
          let normalizedRef := toString (digitsToNat refStr)
          jsOrS (refMap.get? normalizedRef) (refMap.get? (jsToLower normalizedRef))
        else Option.none
      jsOrS (refMap.get? refStr)
        (jsOrS (refMap.get? (jsToLower refStr)) (jsOrS numTry zerosTry))
    else Option.none
  if jsTruthyS byRef then byRef
  else
    if jsTruthyS insp.assetId then
      let idStr := jsTrim (insp.assetId.getD "")
      jsOrS (idMap.get? idStr) (idMap.get? (jsToLower idStr))
    else Option.none

/-- The loop body of `matchInspectionsToAssets` (mdbParser lines 124–193):
push the inspection under its matched key; the `if (matchedKey)` guards are
truthiness checks; an unmatched inspection is logged and dropped. -/
def matchStep (maps : SMap String × SMap String)
    (matched : SMap (List InspectionRecord)) (insp : InspectionRecord) :
    SMap (List InspectionRecord) :=
  let matchedKey := findInspectionKey maps.1 maps.2 insp
  if jsTruthyS matchedKey then
    matched.set (matchedKey.getD "") ((matched.get? (matchedKey.getD "")).getD [] ++ [insp])
  else matched

/-- `matchInspectionsToAssets` (mdbParser lines 70–197): build the lookup
maps, then group each inspection under the asset key it matches. -/
def matchInspectionsToAssets (inspections : List InspectionRecord)
    (assets : List SewerAsset) : SMap (List InspectionRecord) :=
  inspections.foldl (matchStep (buildLookupMaps assets)) SMap.empty

/-! ## Tap classification and the tap branch — the map component (MapView) -/

/-- A defect record, restricted to the fields the tap branch consults.
`propsPACP_Code`/`propsCode` model `d.properties?.PACP_Code` and
`d.properties?.Code`.  `distance` is `none` when absent; present distances
are finite numbers (the extractor drops NaN and negative distances), so
`Number.isNaN(Number(d.distance))` cannot fire on a present value. -/
structure DefectRecord where
  inspectionId : Option String := Option.none
  pipeSegmentReference : Option String := Option.none
  defectCode : Option String := Option.none
  propsPACP_Code : Option String := Option.none
  propsCode : Option String := Option.none
  distance : Option ℚ := Option.none
  clockPosition : Option ℚ := Option.none
deriving DecidableEq, Repr

/-- `isTapCode` (MapView lines 99–102): `(code ?? "").trim().toUpperCase()`
starts with TB, TF or TS. -/
def isTapCode (code : Option String) : Bool :=
  let c := jsToUpper (jsTrim (code.getD ""))
  jsStartsWith c "TB" || jsStartsWith c "TF" || jsStartsWith c "TS"

/-- The tap filter (MapView lines 119–124): the aliased code classifies as a
tap code and the defect has a numeric distance. -/
def isTapDefect (d : DefectRecord) : Bool :=
  let code := jsCoalesce d.defectCode (jsCoalesce d.propsPACP_Code d.propsCode)
  let hasTapCode := isTapCode code
  let hasDistance := d.distance.isSome
  hasTapCode && hasDistance

/-- The resolved imperial flag of an inspection (MapView line 183):
`inspection.isImperial ?? inspection.raw?.IsImperial ??
inspection.properties?.IsImperial`. -/
def resolveIsImperial (insp : InspectionRecord) : Option ImperialVal :=
  jsCoalesce insp.isImperial (jsCoalesce insp.rawIsImperial insp.propsIsImperial)

/-- The conversion test (MapView line 184): `isImperial === 1 || isImperial
=== true`. -/
def imperialFlagSet (v : Option ImperialVal) : Bool :=
  v == some (ImperialVal.num 1) || v == some (ImperialVal.boolVal true)

/-- The distance used by the tap branch (MapView lines 179–187):
`Number(tapDefect.distance)`, multiplied by 0.3048 exactly when the resolved
imperial flag is 1 or true.  The tap filter guarantees `distance` is
present. -/
def tapBranchDistanceMeters (tapDefect : DefectRecord) (insp : InspectionRecord) : ℚ :=
  let distanceMeters := tapDefect.distance.getD 0
  if imperialFlagSet (resolveIsImperial insp) then distanceMeters * (3048/10000)
  else distanceMeters

/-- The tap-branch projection (MapView lines 189–197): project the converted
distance on the asset, defaulting a missing clock position to 12. -/
def tapBranchProjection (G : GeoLib) (asset : SewerAsset) (tapDefect : DefectRecord)
    (insp : InspectionRecord) : Except String Position :=
  calculateLateralPosition G asset.geometry (tapBranchDistanceMeters tapDefect insp)
    (tapDefect.clockPosition.getD 12)

/-! ## Lateral/Tap Assembler — src/app/api/process/route.ts -/

/-- JavaScript truthiness of an optional number: `undefined`/`null`, 0 (and
NaN, not representable in ℚ) are falsy. -/
def jsTruthyQ : Option ℚ → Bool
  | Option.none => false
  | some q => q != 0

/-- The skip gate (route.ts lines 140–148): an inspection is skipped — the
skip counter incremented and the loop continued — when `!inspection.tapDistance`
(truthiness: null, undefined or 0) or its clockPosition is undefined or null. -/
def skipsLateral (insp : InspectionRecord) : Bool :=
  !(jsTruthyQ insp.tapDistance) || insp.clockPosition.isNone

/-- The number of gate skips over a matched inspection list, as the loop
accumulates `skippedCount` at the gate (route.ts line 145). -/
def gateSkippedCount (insps : List InspectionRecord) : ℕ :=
  insps.foldl (fun n i => if skipsLateral i then n + 1 else n) 0

/-- The lateral-branch projection step (route.ts lines 140–189): `none` when
the gate skips the inspection, otherwise `calculateLateralPosition` applied
to `inspection.tapDistance` and `inspection.clockPosition` as recorded — the
route applies no unit conversion.  The `getD` defaults never fire: the gate
guarantees both fields are present. -/
def processLateralInspection (G : GeoLib) (asset : SewerAsset)
    (insp : InspectionRecord) : Option (Except String Position) :=
  if skipsLateral insp then Option.none
  else some (calculateLateralPosition G asset.geometry (insp.tapDistance.getD 0)
    (insp.clockPosition.getD 0))

/-! ## Geocoding — src/lib/services/geocodingService.ts and route.ts 226–242 -/

/-- The result of a reverse-geocode call. -/
structure GeocodingResult where
  address : String
deriving DecidableEq, Repr

/-- The environment a `reverseGeocode` call runs against — its external
collaborators: the configured token and the Mapbox fetch. -/
inductive GeoEnv where
  | noToken
  | fetchFails
  | found (address : String)
  | notFound
deriving DecidableEq, Repr

/-- `reverseGeocode` (geocodingService lines 11–77): throws when no token is
configured (line 23); a failed fetch or non-OK response is caught at line 70
and returned as the sentinel address `Geocoding failed`; a successful
response with no features yields `Address not found`.  The cache (lines
17–20, 67) only replays earlier outcomes and is not modelled. -/
def reverseGeocode : GeoEnv → Except String GeocodingResult
  | GeoEnv.noToken => Except.error "Mapbox access token is not configured"
  | GeoEnv.fetchFails => Except.ok { address := "Geocoding failed" }
  | GeoEnv.found a => Except.ok { address := a }
  | GeoEnv.notFound => Except.ok { address := "Address not found" }

/-- Which branch of `Promise.race([reverseGeocode(...), timeout(5000)])`
settles first (route.ts lines 231–236): the geocoder, or the 5-second timer
whose rejection carries `Geocoding timeout`.  Real time is abstracted into
which branch wins. -/
inductive RaceOutcome where
  | geocoderFirst (env : GeoEnv)
  | timerFirst
deriving DecidableEq, Repr

/-- The settled value of the race. -/
def raceResult : RaceOutcome → Except String GeocodingResult
  | RaceOutcome.geocoderFirst env => reverseGeocode env
  | RaceOutcome.timerFirst => Except.error "Geocoding timeout"

/-- A lateral record as far as the geocoding step shapes it. -/
structure LateralRecord where
  coordinates : Position
  address : String
deriving DecidableEq, Repr

/-- route.ts lines 226–264: the address starts as `Address not found`; the
try block overwrites it with the geocoder's address; any rejection
(timeout or thrown error) is caught and the default kept; the record is then
assembled and pushed unconditionally. -/
def assembleLateralRecord (validatedCoordinates : Position) (o : RaceOutcome) :
    LateralRecord :=
  let address :=
    match raceResult o with
    | Except.ok r => r.address
    | Except.error _ => "Address not found"
  { coordinates := validatedCoordinates, address := address }

/-! ## Export validation — src/lib/utils/exportUtils.ts -/

/-- Geometry of an exported feature as `validateGeoJSONExport` inspects it:
Point and LineString coordinate arrays may be malformed, so their entries are
raw `JSVal` lists; other geometry types are ignored by the validator. -/
inductive ExportGeometry where
  | point (coordinates : List JSVal)
  | lineString (coordinates : List (List JSVal))
  | otherExportGeom (typeName : String)
deriving DecidableEq, Repr

/-- An exported feature (only its geometry matters to the validator; the
feature id is carried positionally). -/
structure ExportFeature where
  geometry : ExportGeometry
deriving DecidableEq, Repr

/-- The issues `validateGeoJSONExport` records, one constructor per `push`
site; `pointIndex` is the position inside a LineString (0 for a Point). -/
inductive IssueKind where
  | invalidCoordArray
  | invalidPointCoord (pointIndex : ℕ)
  | nanCoord (pointIndex : ℕ)
  | invalidLat (pointIndex : ℕ)
  | lngOutOfRange (pointIndex : ℕ)
deriving DecidableEq, Repr

/-- Scan of one coordinate pair (exportUtils lines 346–391 for LineString
entries, 289–332 for the Point pair): (errors, warnings, points reaching the
statistics update).  A `return` in the source skips the rest of that
coordinate only. -/
def scanCoordPair (i : ℕ) (coords : List JSVal) :
    List IssueKind × List IssueKind × List (ℚ × ℚ) :=
  if coords.length < 2 then ([IssueKind.invalidPointCoord i], [], [])
  else
    match coords[0]?, coords[1]? with
    | some (JSVal.num lng), some (JSVal.num lat) =>
      ((if lat < -90 ∨ 90 < lat then [IssueKind.invalidLat i] else []),
       (if lng < -180 ∨ 180 < lng then [IssueKind.lngOutOfRange i] else []),
       [(lng, lat)])
    | _, _ => ([IssueKind.nanCoord i], [], [])

/-- Scan of one feature (exportUtils lines 281–393): Point and LineString
geometries are checked; any other type contributes nothing. -/
def scanFeature (f : ExportFeature) :
    List IssueKind × List IssueKind × List (ℚ × ℚ) :=
  match f.geometry with
  | ExportGeometry.point coords =>
    if coords.length < 2 then ([IssueKind.invalidCoordArray], [], [])
    else
      match coords[0]?, coords[1]? with
      | some (JSVal.num lng), some (JSVal.num lat) =>
        ((if lat < -90 ∨ 90 < lat then [IssueKind.invalidLat 0] else []),
         (if lng < -180 ∨ 180 < lng then [IssueKind.lngOutOfRange 0] else []),
         [(lng, lat)])
      | _, _ => ([IssueKind.nanCoord 0], [], [])
  | ExportGeometry.lineString coordsArray =>
    if coordsArray.length < 2 then ([IssueKind.invalidCoordArray], [], [])
    else
      -- the forEach appends each pair's pushes in order; the three output
      -- lists are exactly these concatenations
      (coordsArray.enum.flatMap (fun p => (scanCoordPair p.1 p.2).1),
       coordsArray.enum.flatMap (fun p => (scanCoordPair p.1 p.2).2.1),
       coordsArray.enum.flatMap (fun p => (scanCoordPair p.1 p.2).2.2))
  | ExportGeometry.otherExportGeom _ => ([], [], [])

/-- The validation report (exportUtils lines 258–271 and 395–408).  The
coordinate ranges fold over the points reaching the statistics update; the
source's `Infinity` initial accumulators are the `none` state, and the final
`min === Infinity ? 0 : min` fallback is applied by `getD` below. -/
structure ExportReport where
  isValid : Bool
  errors : List (ℕ × IssueKind)
  warnings : List (ℕ × IssueKind)
  totalFeatures : ℕ
  pointFeatures : ℕ
  lineStringFeatures : ℕ
  latRange : Option (ℚ × ℚ)
  lngRange : Option (ℚ × ℚ)
deriving DecidableEq, Repr

/-- Fold one coordinate pair into the (min, max) accumulators. -/
def foldRange (acc : Option (ℚ × ℚ) × Option (ℚ × ℚ)) (p : ℚ × ℚ) :
    Option (ℚ × ℚ) × Option (ℚ × ℚ) :=
  (match acc.1 with
   | Option.none => some (p.2, p.2)
   | some r => some (min r.1 p.2, max r.2 p.2),
   match acc.2 with
   | Option.none => some (p.1, p.1)
   | some r => some (min r.1 p.1, max r.2 p.1))

/-- `validateGeoJSONExport` (exportUtils lines 258–409): collect per-feature
errors and warnings over the collection; the report is valid exactly when
`errors.length === 0`. -/
def validateGeoJSONExport (features : List ExportFeature) : ExportReport :=
  let scans := features.enum.map (fun p => (p.1, scanFeature p.2))
  let errors := scans.flatMap (fun s => s.2.1.map (fun k => (s.1, k)))
  let warnings := scans.flatMap (fun s => s.2.2.1.map (fun k => (s.1, k)))
  let statPoints := scans.flatMap (fun s => s.2.2.2)
  let ranges := statPoints.foldl foldRange (Option.none, Option.none)
  { isValid := errors.isEmpty,
    errors := errors,
    warnings := warnings,
    totalFeatures := features.length,
    pointFeatures := (features.filter (fun f =>
      match f.geometry with | ExportGeometry.point _ => true | _ => false)).length,
    lineStringFeatures := (features.filter (fun f =>
      match f.geometry with | ExportGeometry.lineString _ => true | _ => false)).length,
    latRange := ranges.1,
    lngRange := ranges.2 }

/-! ## Claim-side predicates and concrete fixtures -/

/-- Well-formedness of a coordinate pair as the export-validation claim
states it: an array of at least two numbers, no NaN, latitude in range —
deliberately with no constraint on the longitude. -/
def goodCoordPair (coords : List JSVal) : Prop :=
  2 ≤ coords.length ∧
    ∃ q r, coords[0]? = some (JSVal.num q) ∧ coords[1]? = some (JSVal.num r) ∧
      -90 ≤ r ∧ r ≤ 90

/-- Well-formedness of an exported feature: every checked coordinate pair is
well-formed (longitude unconstrained); geometry types the validator ignores
are vacuously fine. -/
def goodFeature (f : ExportFeature) : Prop :=
  match f.geometry with
  | ExportGeometry.point cs => goodCoordPair cs
  | ExportGeometry.lineString css => 2 ≤ css.length ∧ ∀ cs ∈ css, goodCoordPair cs
  | ExportGeometry.otherExportGeom _ => True

/-- A concrete geometry backend used to evaluate the projector at explicit
inputs: every line has length 100 km, the along-line point at `d` km is
`(d, 0)`, bearings are 0 and destinations stay put. -/
def demoGeo : GeoLib where
  length := fun _ => 100
  along := fun _ d => (d, 0)
  bearing := fun _ _ => 0
  destination := fun p _ _ => p

/-- A line asset used by concrete evaluations. -/
def demoLineAsset : SewerAsset where
  properties := {}
  geometry := Geometry.lineString [(0, 0), (1, 1)]

/-- An asset whose FID is the numeric string "7". -/
def asset7 : SewerAsset where
  properties := { FID := some "7" }
  geometry := Geometry.point (0, 0)

/-- An asset whose FID is the uppercase string "ABC". -/
def assetABC : SewerAsset where
  properties := { FID := some "ABC" }
  geometry := Geometry.point (0, 0)

/-- An inspection whose pipe segment reference is "007". -/
def insp007 : InspectionRecord := { pipeSegmentReference := some "007" }

/-- An inspection whose pipe segment reference is "abc". -/
def inspAbcRef : InspectionRecord := { pipeSegmentReference := some "abc" }

/-! ## Supporting lemmas -/

/-- `jsTrunc q` exceeds `q - 1`. -/
theorem jsTrunc_gt (q : ℚ) : q - 1 < (jsTrunc q : ℚ) := by
  unfold jsTrunc
  by_cases h : 0 ≤ q
  · rw [if_pos h]
    exact Int.sub_one_lt_floor q
  · rw [if_neg h]
    have := Int.le_ceil q
    linarith

/-- The JavaScript remainder by 360 is below 360. -/
theorem jsRem_lt_360 (a : ℚ) : jsRem a 360 < 360 := by
  unfold jsRem
  have h := jsTrunc_gt (a / 360)
  have ha : a / 360 * 360 = a := div_mul_cancel₀ a (by norm_num)
  nlinarith

/-- After the clamping step the latitude is always in range. -/
theorem clampLatStep_lat (p : ℚ × ℚ) :
    -90 ≤ (clampLatStep p).2 ∧ (clampLatStep p).2 ≤ 90 := by
  unfold clampLatStep
  split
  · refine ⟨le_max_left _ _, ?_⟩
    exact max_le (by norm_num) (min_le_left _ _)
  · next hc =>
    push_neg at hc
    exact ⟨hc.1, hc.2⟩

/-- The wrap step does not touch the latitude. -/
theorem wrapLngStep_lat (p : ℚ × ℚ) : (wrapLngStep p).2 = p.2 := by
  unfold wrapLngStep
  split <;> rfl

/-- After the wrap step the longitude is at most 180 (it can still be below
−180: the JavaScript remainder keeps the sign of its dividend). -/
theorem wrapLngStep_lng (p : ℚ × ℚ) : (wrapLngStep p).1 ≤ 180 := by
  unfold wrapLngStep
  split
  · have := jsRem_lt_360 (p.1 + 180)
    simp only
    linarith
  · next hc =>
    push_neg at hc
    exact hc.2

/-- The final guard only passes its argument through. -/
theorem finalGuardStep_eq (p q : ℚ × ℚ) (h : finalGuardStep p = some q) :
    q = p := by
  unfold finalGuardStep at h
  split at h
  · exact absurd h (by simp)
  · exact (Option.some.injEq _ _ ▸ h).symm

/-- `validateTail` never emits an out-of-range latitude. -/
theorem validateTail_lat (p : ℚ × ℚ) (lng lat : ℚ)
    (h : validateTail p = some (lng, lat)) : -90 ≤ lat ∧ lat ≤ 90 := by
  unfold validateTail at h
  have hq := finalGuardStep_eq _ _ h
  have h2 := congrArg Prod.snd hq
  simp only at h2
  rw [wrapLngStep_lat] at h2
  rw [h2]
  exact clampLatStep_lat _

/-- `validateTail` never emits a longitude above 180. -/
theorem validateTail_lng (p : ℚ × ℚ) (lng lat : ℚ)
    (h : validateTail p = some (lng, lat)) : lng ≤ 180 := by
  unfold validateTail at h
  have hq := finalGuardStep_eq _ _ h
  have h1 := congrArg Prod.fst hq
  simp only at h1
  rw [h1]
  exact wrapLngStep_lng _

/-- Lookup after `Map.set`. -/
theorem SMap.get?_set {α : Type} (m : SMap α) (k k' : String) (v : α) :
    (m.set k v).get? k' = if k' = k then some v else m.get? k' := by
  induction m with
  | nil =>
    simp only [SMap.set, SMap.get?]
    split_ifs <;> simp_all
  | cons hd tl ih =>
    obtain ⟨k0, v0⟩ := hd
    simp only [SMap.set]
    split_ifs with h0 <;> simp only [SMap.get?] <;> split_ifs <;> simp_all

/-- An inspection whose key search comes back falsy is inserted nowhere by
the matching fold. -/
theorem matchFold_not_mem (maps : SMap String × SMap String) (i : InspectionRecord)
    (hi : jsTruthyS (findInspectionKey maps.1 maps.2 i) = false) :
    ∀ (insps : List InspectionRecord) (acc : SMap (List InspectionRecord)),
      (∀ k l, acc.get? k = some l → i ∉ l) →
      ∀ k l, (insps.foldl (matchStep maps) acc).get? k = some l → i ∉ l := by
  intro insps
  induction insps with
  | nil =>
    intro acc hacc
    simpa using hacc
  | cons j tl ih =>
    intro acc hacc
    simp only [List.foldl_cons]
    apply ih
    intro k l hl
    unfold matchStep at hl
    by_cases hj : jsTruthyS (findInspectionKey maps.1 maps.2 j)
    · rw [if_pos hj, SMap.get?_set] at hl
      split at hl
      · rw [Option.some.injEq] at hl
        subst hl
        intro hmem
        rcases List.mem_append.mp hmem with hold | hnew
        · rcases hkv : acc.get? ((findInspectionKey maps.1 maps.2 j).getD "") with _ | l0
          · rw [hkv] at hold
            simp at hold
          · rw [hkv] at hold
            exact hacc _ _ hkv hold
        · have hij : i = j := by simpa using hnew
          rw [hij] at hi
          rw [hi] at hj
          exact Bool.noConfusion hj
      · exact hacc _ _ hl
    · rw [if_neg hj] at hl
      exact hacc _ _ hl

/-- A flat map over a list all of whose images are empty is empty. -/
theorem flatMap_nil_of {α β : Type} (l : List α) (f : α → List β)
    (h : ∀ x ∈ l, f x = []) : l.flatMap f = [] := by
  induction l with
  | nil => rfl
  | cons a tl ih =>
    simp only [List.flatMap_cons, h a (List.mem_cons_self a tl)]
    exact ih (fun x hx => h x (List.mem_cons_of_mem a hx))

/-- The second component of an enumerated entry is a member of the list. -/
theorem enumFrom_snd_mem {α : Type} :
    ∀ (n : ℕ) (l : List α) (p : ℕ × α), p ∈ List.enumFrom n l → p.2 ∈ l := by
  intro n l
  induction l generalizing n with
  | nil => intro p hp; simp at hp
  | cons a tl ih =>
    intro p hp
    simp only [List.enumFrom] at hp
    rcases List.mem_cons.mp hp with h | h
    · subst h
      exact List.mem_cons_self a tl
    · exact List.mem_cons_of_mem a (ih (n + 1) p h)

/-- A well-formed coordinate pair contributes no error. -/
theorem scanCoordPair_good (i : ℕ) (cs : List JSVal) (h : goodCoordPair cs) :
    (scanCoordPair i cs).1 = [] := by
  obtain ⟨hlen, q, r, h0, h1, hr1, hr2⟩ := h
  unfold scanCoordPair
  rw [if_neg (by omega), h0, h1]
  have hr : ¬(r < -90 ∨ 90 < r) := by
    push_neg
    exact ⟨by linarith, by linarith⟩
  simp [hr]

/-- A well-formed feature contributes no error, whatever its longitudes. -/
theorem scanFeature_good (f : ExportFeature) (h : goodFeature f) :
    (scanFeature f).1 = [] := by
  obtain ⟨geom⟩ := f
  cases geom with
  | point cs =>
    obtain ⟨hlen, q, r, h0, h1, hr1, hr2⟩ := h
    simp only [scanFeature]
    rw [if_neg (by omega), h0, h1]
    have hr : ¬(r < -90 ∨ 90 < r) := by
      push_neg
      exact ⟨by linarith, by linarith⟩
    simp [hr]
  | lineString css =>
    obtain ⟨hlen, hall⟩ := h
    simp only [scanFeature]
    rw [if_neg (by omega)]
    exact flatMap_nil_of _ _ (fun p hp =>
      scanCoordPair_good p.1 p.2 (hall p.2 (enumFrom_snd_mem 0 css p hp)))
  | otherExportGeom t =>
    rfl

/-- Any pair returned by `validateCoordinates` comes out of `validateTail`. -/
theorem validateCoordinates_through_tail (coords : Option (List JSVal)) (lng lat : ℚ)
    (h : validateCoordinates coords = some (lng, lat)) :
    ∃ p, validateTail p = some (lng, lat) := by
  cases coords with
  | none => exact absurd h (by simp [validateCoordinates])
  | some cs =>
    simp only [validateCoordinates] at h
    split at h
    · exact absurd h (by simp)
    · split at h
      · next q r =>
        simp only [validateNums] at h
        exact ⟨_, h⟩
      · exact absurd h (by simp)

/-! ## Claim theorems -/

/-- Claim C3: `validateCoordinates` is total and never emits an out-of-range
latitude: it returns `none` on `null`/non-array input, on arrays shorter than
two, and when the first two slots are not finite numbers; every returned pair
has latitude in [−90, 90]; and `validate([91,45])` returns latitude 45. -/
theorem validateCoordinates_never_bad_lat :
    (validateCoordinates Option.none = Option.none) ∧
    (∀ cs : List JSVal, cs.length < 2 → validateCoordinates (some cs) = Option.none) ∧
    (∀ cs : List JSVal,
      (¬ ∃ q r, cs[0]? = some (JSVal.num q) ∧ cs[1]? = some (JSVal.num r)) →
      validateCoordinates (some cs) = Option.none) ∧
    (∀ coords lng lat, validateCoordinates coords = some (lng, lat) →
      -90 ≤ lat ∧ lat ≤ 90) ∧
    validateCoordinates (some [JSVal.num 91, JSVal.num 45]) = some (91, 45) := by
  refine ⟨rfl, ?_, ?_, ?_, ?_⟩
  · intro cs h
    simp [validateCoordinates, h]
  · intro cs h
    by_cases hl : cs.length < 2
    · simp [validateCoordinates, hl]
    · rcases h0 : cs[0]? with _ | v
      · simp [validateCoordinates, hl, h0]
      · rcases h1 : cs[1]? with _ | w
        · cases v <;> simp [validateCoordinates, hl, h0, h1]
        · cases v <;> cases w <;> simp [validateCoordinates, hl, h0, h1]
          exact absurd ⟨_, _, h0, h1⟩ h
  · intro coords lng lat h
    obtain ⟨p, hp⟩ := validateCoordinates_through_tail coords lng lat h
    exact validateTail_lat p lng lat hp
  · norm_num [validateCoordinates, validateNums, validateTail, safetySwapStep, clampLatStep,
      wrapLngStep, finalGuardStep, jsAbs, jsClamp, jsRem, jsTrunc]

/-- Witness for C3 at concrete inputs: a one-element array is rejected, and
the latitude bound holds at the pair returned for `[37, -121]` (the
US-pattern swap). -/
theorem validateCoordinates_never_bad_lat_witness :
    validateCoordinates (some [JSVal.num 5]) = Option.none ∧
    (-90 ≤ (37 : ℚ) ∧ (37 : ℚ) ≤ 90) :=
  ⟨validateCoordinates_never_bad_lat.2.1 [JSVal.num 5] (by decide),
   validateCoordinates_never_bad_lat.2.2.2.1 (some [JSVal.num 37, JSVal.num (-121)])
     (-121) 37
     (by norm_num [validateCoordinates, validateNums, validateTail, safetySwapStep,
       clampLatStep, wrapLngStep, finalGuardStep, jsAbs, jsClamp, jsRem, jsTrunc])⟩

/-- Claim C4 counterexample: `validateCoordinates` can return a longitude
outside [−180, 180].  On `[-200, 45]` the swap checks bounce the pair back to
`(-200, 45)`, and the wrap `((lng + 180) % 360) - 180` uses the JavaScript
remainder, which keeps the dividend's sign: `(-20 % 360) = -20`, so the
longitude comes back as −200, below −180. -/
theorem validateCoordinates_neg_lng_cex :
    validateCoordinates (some [JSVal.num (-200), JSVal.num 45]) = some (-200, 45) ∧
    ((-200 : ℚ) < -180) := by
  constructor
  · norm_num [validateCoordinates, validateNums, validateTail, safetySwapStep, clampLatStep,
      wrapLngStep, finalGuardStep, jsAbs, jsClamp, jsRem, jsTrunc]
    rw [show ⌈-(1/18 : ℚ)⌉ = 0 from by norm_num]
    norm_num
  · norm_num

/-- Claim C4 (amended): every returned longitude is at most 180, and a
longitude above 180 is wrapped into range — `validate([200,45])` returns
`[-160, 45]`; but because the JavaScript remainder keeps the dividend's sign,
a longitude below −180 can be returned unchanged rather than wrapped. -/
theorem validateCoordinates_lng_wrap :
    (∀ coords lng lat, validateCoordinates coords = some (lng, lat) → lng ≤ 180) ∧
    validateCoordinates (some [JSVal.num 200, JSVal.num 45]) = some (-160, 45) := by
  constructor
  · intro coords lng lat h
    obtain ⟨p, hp⟩ := validateCoordinates_through_tail coords lng lat h
    exact validateTail_lng p lng lat hp
  · norm_num [validateCoordinates, validateNums, validateTail, safetySwapStep, clampLatStep,
      wrapLngStep, finalGuardStep, jsAbs, jsClamp, jsRem, jsTrunc]

/-- Witness for the amended C4: the longitude bound instantiated at the
result of `validate([200,45])`. -/
theorem validateCoordinates_lng_wrap_witness : (-160 : ℚ) ≤ 180 :=
  validateCoordinates_lng_wrap.1 (some [JSVal.num 200, JSVal.num 45]) (-160) 45
    (by norm_num [validateCoordinates, validateNums, validateTail, safetySwapStep,
      clampLatStep, wrapLngStep, finalGuardStep, jsAbs, jsClamp, jsRem, jsTrunc])

/-- Claim C5: for a line of total length `L` meters (`1000 * G.length line`
with turf lengths in km) and any requested distance `d > L`, the stub
computation places the connection point at the along-line point at distance
`L` — the line's endpoint — and the plain lateral projection behaves exactly
as if the requested distance were `L`: no extrapolation beyond the line, for
any geometry backend.  (`calculateLateralPosition` routes a MultiLineString
through the same function on its first member line.) -/
theorem clamp_no_extrapolation :
    ∀ (G : GeoLib) (line : List Position) (d clock slen : ℚ),
      1000 * G.length line < d →
      (calculateStubFromLine G line d clock slen).connectionPoint =
        G.along line (G.length line) ∧
      calculateLateralFromLine G line d (some clock) =
        calculateLateralFromLine G line (1000 * G.length line) (some clock) := by
  intro G line d clock slen h
  have hlt : G.length line < d / 1000 := by
    rw [lt_div_iff₀ (by norm_num : (0 : ℚ) < 1000)]
    linarith
  have hmin : min (d / 1000) (G.length line) = G.length line := min_eq_right hlt.le
  have hdiv : 1000 * G.length line / 1000 = G.length line :=
    mul_div_cancel_left₀ _ (by norm_num)
  constructor
  · simp only [calculateStubFromLine, hmin]
  · simp only [calculateLateralFromLine, hmin, hdiv, min_self]

/-- Witness for C5 with the concrete backend: a 100 km line and a 200 000 m
request. -/
theorem clamp_no_extrapolation_witness :
    (calculateStubFromLine demoGeo [(0, 0), (1, 1)] 200000 3 (3048/1000)).connectionPoint =
      demoGeo.along [(0, 0), (1, 1)] (demoGeo.length [(0, 0), (1, 1)]) ∧
    calculateLateralFromLine demoGeo [(0, 0), (1, 1)] 200000 (some 3) =
      calculateLateralFromLine demoGeo [(0, 0), (1, 1)]
        (1000 * demoGeo.length [(0, 0), (1, 1)]) (some 3) :=
  clamp_no_extrapolation demoGeo [(0, 0), (1, 1)] 200000 3 (3048/1000)
    (by simp only [demoGeo]; norm_num)

/-- Claim C7: a defect classifies as a tap exactly when its aliased code,
trimmed and upper-cased, starts with TB, TF or TS and its distance is
present; `TF1` with a distance is a tap, bare `TF` without a distance is not,
and the alias/trim/case handling admits ` tf3 ` under `PACP_Code`. -/
theorem isTap_characterization :
    (isTapDefect { defectCode := some "TF1", distance := some 5 } = true) ∧
    (isTapDefect { defectCode := some "TF" } = false) ∧
    (isTapDefect { propsPACP_Code := some " tf3 ", distance := some 1 } = true) ∧
    (∀ d : DefectRecord, isTapDefect d = true ↔
      ((jsStartsWith (jsToUpper (jsTrim ((jsCoalesce d.defectCode
          (jsCoalesce d.propsPACP_Code d.propsCode)).getD ""))) "TB" = true ∨
        jsStartsWith (jsToUpper (jsTrim ((jsCoalesce d.defectCode
          (jsCoalesce d.propsPACP_Code d.propsCode)).getD ""))) "TF" = true ∨
        jsStartsWith (jsToUpper (jsTrim ((jsCoalesce d.defectCode
          (jsCoalesce d.propsPACP_Code d.propsCode)).getD ""))) "TS" = true) ∧
       d.distance ≠ Option.none)) := by
  refine ⟨by decide, by decide, by decide, ?_⟩
  intro d
  simp only [isTapDefect, isTapCode]
  rw [Bool.and_eq_true, Bool.or_eq_true, Bool.or_eq_true]
  simp only [Option.isSome_iff_ne_none]
  tauto

/-- Witness for the C7 characterization at the `TF1` defect. -/
theorem isTap_characterization_witness :
    ((jsStartsWith (jsToUpper (jsTrim "TF1")) "TB" = true ∨
      jsStartsWith (jsToUpper (jsTrim "TF1")) "TF" = true ∨
      jsStartsWith (jsToUpper (jsTrim "TF1")) "TS" = true) ∧
     some (5 : ℚ) ≠ Option.none) :=
  (isTap_characterization.2.2.2 { defectCode := some "TF1", distance := some 5 }).mp
    (by decide)

/-- Claim C8: when `clockToSide` reports the ambiguous side 0 (clock at 12 or
6), the plain lateral projection applies no perpendicular offset — the
returned point is the along-line point at the clamped distance — while the
stub computation defaults the side to +90° off the local tangent bearing, so
the stub end is the destination at `stubLength` on that defaulted
perpendicular. -/
theorem ambiguous_side_default :
    ∀ (G : GeoLib) (line : List Position) (d k slen : ℚ),
      (clockToSide (some k)).side = 0 →
      calculateLateralFromLine G line d (some k) =
        G.along line (min (d / 1000) (G.length line)) ∧
      (calculateStubFromLine G line d k slen).stubLine.2 =
        G.destination ((calculateStubFromLine G line d k slen).connectionPoint) slen
          (normalize360 (G.bearing
            (G.along line (max 0 (min (d / 1000) (G.length line) - 1/1000)))
            (G.along line (min (G.length line) (min (d / 1000) (G.length line) + 1/1000)))
            + 90)) := by
  intro G line d k slen h
  constructor
  · simp only [calculateLateralFromLine, h]
    simp
  · simp only [calculateStubFromLine, h]
    simp

/-- Witness for C8 at clock 12 with the concrete backend. -/
theorem ambiguous_side_default_witness :
    calculateLateralFromLine demoGeo [(0, 0)] 5 (some 12) =
      demoGeo.along [(0, 0)] (min (5 / 1000) (demoGeo.length [(0, 0)])) ∧
    (calculateStubFromLine demoGeo [(0, 0)] 5 12 2).stubLine.2 =
      demoGeo.destination ((calculateStubFromLine demoGeo [(0, 0)] 5 12 2).connectionPoint) 2
        (normalize360 (demoGeo.bearing
          (demoGeo.along [(0, 0)] (max 0 (min (5 / 1000) (demoGeo.length [(0, 0)]) - 1/1000)))
          (demoGeo.along [(0, 0)]
            (min (demoGeo.length [(0, 0)]) (min (5 / 1000) (demoGeo.length [(0, 0)]) + 1/1000)))
          + 90)) :=
  ambiguous_side_default demoGeo [(0, 0)] 5 12 2
    (by norm_num [clockToSide, jsRem, jsTrunc])

/-- Claim C9: a geocoding failure is absorbed, never propagated: when the
5-second timer wins the race (or the service throws for a missing token) the
record carries `Address not found`; when the geocoding fetch itself errors,
the service's own catch returns the sentinel `Geocoding failed`; and in every
case the record is still assembled with its validated coordinates — nothing
is dropped and no exception escapes (the assembly step is total). -/
theorem geocode_best_effort :
    ∀ (coords : Position) (o : RaceOutcome),
      ((o = RaceOutcome.timerFirst ∨ o = RaceOutcome.geocoderFirst GeoEnv.noToken) →
        (assembleLateralRecord coords o).address = "Address not found") ∧
      (o = RaceOutcome.geocoderFirst GeoEnv.fetchFails →
        (assembleLateralRecord coords o).address = "Geocoding failed") ∧
      (o = RaceOutcome.geocoderFirst GeoEnv.notFound →
        (assembleLateralRecord coords o).address = "Address not found") ∧
      (assembleLateralRecord coords o).coordinates = coords := by
  intro coords o
  refine ⟨?_, ?_, ?_, ?_⟩
  · rintro (rfl | rfl) <;> rfl
  · rintro rfl
    rfl
  · rintro rfl
    rfl
  · cases o <;> rfl

/-- Witness for C9: the timeout case at a concrete coordinate. -/
theorem geocode_best_effort_witness :
    (assembleLateralRecord (0, 0) RaceOutcome.timerFirst).address = "Address not found" :=
  (geocode_best_effort (0, 0) RaceOutcome.timerFirst).1 (Or.inl rfl)

/-- Claim C1 counterexample: the lateral branch of the process route does not
apply the imperial conversion.  An inspection with the imperial flag set to 1
and tapDistance 1000 is projected at 1000 m — `along` at 1 km on the concrete
backend — not at 1000 × 0.3048 = 304.8 m as the claim requires, and the two
projected points differ. -/
theorem imperial_conversion_cex :
    processLateralInspection demoGeo demoLineAsset
        { tapDistance := some 1000, clockPosition := some 12,
          isImperial := some (ImperialVal.num 1) } =
      some (Except.ok ((1 : ℚ), (0 : ℚ))) ∧
    calculateLateralPosition demoGeo demoLineAsset.geometry (1000 * (3048/10000)) 12 =
      Except.ok ((381/1250 : ℚ), (0 : ℚ)) ∧
    ¬((1 : ℚ), (0 : ℚ)) = ((381/1250 : ℚ), (0 : ℚ)) := by
  refine ⟨?_, ?_, ?_⟩
  · norm_num [processLateralInspection, skipsLateral, jsTruthyQ, calculateLateralPosition,
      calculateLateralFromLine, clockToSide, jsRem, jsTrunc, demoGeo, demoLineAsset]
  · norm_num [calculateLateralPosition, calculateLateralFromLine, clockToSide, jsRem,
      jsTrunc, demoGeo, demoLineAsset]
  · norm_num [Prod.ext_iff]

/-- Claim C1 (amended): the feet→meters conversion (× 0.3048, on an imperial
flag of 1 or true under any alias) is applied on the tap branch only; the
lateral branch of the process route passes the recorded tapDistance to the
projector unchanged, imperial flag or not. -/
theorem imperial_conversion_amended :
    (∀ (td : DefectRecord) (insp : InspectionRecord),
      imperialFlagSet (resolveIsImperial insp) = true →
        tapBranchDistanceMeters td insp = td.distance.getD 0 * (3048/10000)) ∧
    (∀ (td : DefectRecord) (insp : InspectionRecord),
      imperialFlagSet (resolveIsImperial insp) = false →
        tapBranchDistanceMeters td insp = td.distance.getD 0) ∧
    (∀ (G : GeoLib) (asset : SewerAsset) (insp : InspectionRecord),
      skipsLateral insp = false →
        processLateralInspection G asset insp =
          some (calculateLateralPosition G asset.geometry (insp.tapDistance.getD 0)
            (insp.clockPosition.getD 0))) := by
  refine ⟨?_, ?_, ?_⟩
  · intro td insp h
    simp [tapBranchDistanceMeters, h]
  · intro td insp h
    simp [tapBranchDistanceMeters, h]
  · intro G asset insp h
    simp [processLateralInspection, h]

/-- Witness for the amended C1: a 10-unit distance converts to 3.048 m on the
tap branch when the flag is the number 1, and the gate-passing inspection is
projected at its recorded distance on the lateral branch. -/
theorem imperial_conversion_amended_witness :
    tapBranchDistanceMeters { distance := some 10 }
        { isImperial := some (ImperialVal.num 1) } =
      (some (10 : ℚ)).getD 0 * (3048/10000) ∧
    processLateralInspection demoGeo demoLineAsset
        { tapDistance := some 7, clockPosition := some 3 } =
      some (calculateLateralPosition demoGeo demoLineAsset.geometry
        ((some (7 : ℚ)).getD 0) ((some (3 : ℚ)).getD 0)) :=
  ⟨imperial_conversion_amended.1 { distance := some 10 }
      { isImperial := some (ImperialVal.num 1) } (by decide),
   imperial_conversion_amended.2.2 demoGeo demoLineAsset
      { tapDistance := some 7, clockPosition := some 3 } (by decide)⟩

/-- Claim C2 counterexample: the gate is JavaScript truthiness, not a null
check.  An inspection with tapDistance 0 — non-null — and clockPosition 3 is
skipped, because `!inspection.tapDistance` is true for 0. -/
theorem skip_gate_cex :
    skipsLateral { tapDistance := some 0, clockPosition := some 3 } = true ∧
    ({ tapDistance := some 0, clockPosition := some 3 } : InspectionRecord).tapDistance ≠
      Option.none ∧
    ({ tapDistance := some 0, clockPosition := some 3 } : InspectionRecord).clockPosition ≠
      Option.none := by
  refine ⟨by decide, by decide, by decide⟩

/-- Claim C2 (amended): the route attempts to build a lateral exactly when
the inspection's tapDistance is truthy — non-null and non-zero — and its
clockPosition is neither undefined nor null; otherwise the gate increments
the skip counter and the loop continues, so the gate's skip count over a
batch is exactly the number of non-qualifying inspections. -/
theorem skip_gate_amended :
    (∀ insp : InspectionRecord, skipsLateral insp = false ↔
      (insp.tapDistance ≠ Option.none ∧ insp.tapDistance ≠ some 0 ∧
       insp.clockPosition ≠ Option.none)) ∧
    (∀ insps : List InspectionRecord,
      gateSkippedCount insps = (insps.filter skipsLateral).length) := by
  constructor
  · intro insp
    rcases htd : insp.tapDistance with _ | q <;> rcases hcp : insp.clockPosition with _ | c <;>
      simp [skipsLateral, jsTruthyQ, htd, hcp]
  · intro insps
    have haux : ∀ (l : List InspectionRecord) (n : ℕ),
        l.foldl (fun n i => if skipsLateral i then n + 1 else n) n =
          n + (l.filter skipsLateral).length := by
      intro l
      induction l with
      | nil =>
        intro n
        simp
      | cons a tl ih =>
        intro n
        by_cases ha : skipsLateral a = true
        · rw [List.foldl_cons, if_pos ha, ih, List.filter_cons, if_pos ha]
          simp
          omega
        · rw [List.foldl_cons, if_neg ha, ih, List.filter_cons, if_neg ha]
    simpa using haux insps 0

/-- Claim C6: the matcher's key normalization joins "007" to FID "7" (integer
parse drops leading zeros), joins reference "abc" to FID "ABC"
(case-insensitive), and an inspection matching no asset by either route is
simply absent from every entry of the result map — the whole match still
succeeds. -/
theorem matcher_key_normalization :
    ((matchInspectionsToAssets [insp007] [asset7]).get? "7" = some [insp007]) ∧
    ((matchInspectionsToAssets [inspAbcRef] [assetABC]).get? "ABC" = some [inspAbcRef]) ∧
    (∀ (inspections : List InspectionRecord) (assets : List SewerAsset)
       (i : InspectionRecord) (k : String) (l : List InspectionRecord),
      findInspectionKey (buildLookupMaps assets).1 (buildLookupMaps assets).2 i =
        Option.none →
      (matchInspectionsToAssets inspections assets).get? k = some l → i ∉ l) := by
  refine ⟨by decide, by decide, ?_⟩
  intro inspections assets i k l hnone hget
  have hfalse : jsTruthyS (findInspectionKey (buildLookupMaps assets).1
      (buildLookupMaps assets).2 i) = false := by
    rw [hnone]
    rfl
  exact matchFold_not_mem (buildLookupMaps assets) i hfalse inspections SMap.empty
    (fun k' l' h => by simp [SMap.empty, SMap.get?] at h) k l hget

/-- Witness for C6: an inspection referencing "zz" matches nothing against
the FID-7 asset, so it is not in the entry that "007" produced. -/
theorem matcher_key_normalization_witness :
    ({ pipeSegmentReference := some "zz" } : InspectionRecord) ∉ [insp007] :=
  matcher_key_normalization.2.2 [insp007, { pipeSegmentReference := some "zz" }] [asset7]
    { pipeSegmentReference := some "zz" } "7" [insp007] (by decide) (by decide)

/-- Claim C10: `validateGeoJSONExport` reports `isValid` exactly when its
error list is empty; an out-of-range latitude, a NaN component, or a
malformed coordinate array in a Point or LineString produces an error, while
an out-of-range longitude produces only a warning — a collection whose every
feature is well-formed apart from its longitudes is always valid. -/
theorem export_validation_report :
    (∀ fs : List ExportFeature,
      (validateGeoJSONExport fs).isValid = true ↔
        (validateGeoJSONExport fs).errors = []) ∧
    ((validateGeoJSONExport
      [{ geometry := ExportGeometry.point [JSVal.num 200, JSVal.num 45] }]).isValid = true) ∧
    ((validateGeoJSONExport
      [{ geometry := ExportGeometry.point [JSVal.num 200, JSVal.num 45] }]).warnings ≠ []) ∧
    ((validateGeoJSONExport
      [{ geometry := ExportGeometry.point [JSVal.num 0, JSVal.num 95] }]).isValid = false) ∧
    ((validateGeoJSONExport
      [{ geometry := ExportGeometry.point [JSVal.num 0, JSVal.nan] }]).isValid = false) ∧
    ((validateGeoJSONExport
      [{ geometry := ExportGeometry.point [JSVal.num 0] }]).isValid = false) ∧
    ((validateGeoJSONExport
      [{ geometry := ExportGeometry.lineString
          [[JSVal.num 200, JSVal.num 45], [JSVal.num (-200), JSVal.num 0]] }]).isValid
      = true) ∧
    ((validateGeoJSONExport
      [{ geometry := ExportGeometry.lineString
          [[JSVal.num 0, JSVal.num 95], [JSVal.num 0, JSVal.num 0]] }]).isValid = false) ∧
    (∀ fs : List ExportFeature, (∀ f ∈ fs, goodFeature f) →
      (validateGeoJSONExport fs).isValid = true) := by
  refine ⟨?_, by decide, by decide, by decide, by decide, by decide, by decide, by decide, ?_⟩
  · intro fs
    simp only [validateGeoJSONExport]
    exact List.isEmpty_iff
  · intro fs h
    simp only [validateGeoJSONExport]
    have hnil : (fs.enum.map (fun p => (p.1, scanFeature p.2))).flatMap
        (fun s => s.2.1.map (fun kk => (s.1, kk))) = ([] : List (ℕ × IssueKind)) := by
      apply flatMap_nil_of
      intro x hx
      obtain ⟨p, hp, rfl⟩ := List.mem_map.mp hx
      rw [scanFeature_good p.2 (h p.2 (enumFrom_snd_mem 0 fs p hp))]
      rfl
    rw [hnil]
    rfl

/-- Witness for C10: a single point with longitude 300 — well-formed apart
from the longitude — validates. -/
theorem export_validation_report_witness :
    (validateGeoJSONExport
      [{ geometry := ExportGeometry.point [JSVal.num 300, JSVal.num 10] }]).isValid = true :=
  export_validation_report.2.2.2.2.2.2.2.2
    [{ geometry := ExportGeometry.point [JSVal.num 300, JSVal.num 10] }]
    (by
      intro f hf
      simp only [List.mem_singleton] at hf
      subst hf
      exact ⟨by decide, 300, 10, rfl, rfl, by decide, by decide⟩)

/-- Witness for the amended C2: the gate characterization instantiated at a
qualifying inspection. -/
theorem skip_gate_amended_witness :
    skipsLateral { tapDistance := some 5, clockPosition := some 3 } = false ↔
      (({ tapDistance := some 5, clockPosition := some 3 } : InspectionRecord).tapDistance ≠
         Option.none ∧
       ({ tapDistance := some 5, clockPosition := some 3 } : InspectionRecord).tapDistance ≠
         some 0 ∧
       ({ tapDistance := some 5, clockPosition := some 3 } : InspectionRecord).clockPosition ≠
         Option.none) :=
  skip_gate_amended.1 { tapDistance := some 5, clockPosition := some 3 }
